import Mathlib

/-!
Shallow embedding of `auto-recheck.py` (gerrit-auto-recheck), a script that
scans gerrit reviews for CI failures caused only by known-flaky jobs and, when
appropriate, posts a "recheck" directive.

Conventions of the embedding:
* Python `str` values are Lean `String`s; all scanning is done on their
  underlying `List Char` so that everything reduces by `rfl`/`decide`.
* Python dict lookups that may raise `KeyError` are modelled by `Option`
  fields plus the `req` helper, which turns a missing field into
  `Except.error PyErr.keyError`; `list[-1]` on an empty list becomes
  `PyErr.indexError`.  All fallible code lives in `Except PyErr`.
* Timestamps and gerrit numbers are `Int`; bug numbers extracted from digit
  runs are `Nat` (Python ints are unbounded, as are these).
* Python whitespace (`\s` over these ASCII report texts) is modelled by
  `isPySpace`; `str.splitlines` is modelled for the line breaks that occur in
  this data (`\n`, `\r\n`, `\r`, `\x0b`, `\x0c`); the exotic Unicode line
  separators of Python are not modelled.
-/

namespace AutoRecheck

/-- Python exceptions that the decision path of the script can raise. -/
inductive PyErr
  | keyError
  | indexError
  deriving DecidableEq

/-- Lookup of a dict key modelled by an `Option` field: a missing key raises
`KeyError`. -/
def req {α : Type} (o : Option α) : Except PyErr α :=
  match o with
  | none => Except.error PyErr.keyError
  | some a => Except.ok a

/-- Python `\s` on the ASCII range (space, tab, and the line-break characters
handled by `pySplitlines`). -/
def isPySpace (c : Char) : Bool :=
  c = ' ' || c = '\t' || c = '\n' || c = '\r' || c = '\x0b' || c = '\x0c'

/-- Whether the first list is a prefix of the second (Python
`str.startswith`, character by character). -/
def isPrefixOfChars : List Char → List Char → Bool
  | [], _ => true
  | _ :: _, [] => false
  | a :: as, b :: bs => a == b && isPrefixOfChars as bs

/-- Python `str.startswith`. -/
def pyStartsWith (s pre : String) : Bool :=
  isPrefixOfChars pre.data s.data

/-- Python `needle in haystack` substring containment. -/
def hasSubstr (needle : List Char) : List Char → Bool
  | [] => isPrefixOfChars needle []
  | c :: rest => isPrefixOfChars needle (c :: rest) || hasSubstr needle rest

/-- Python `str.splitlines` restricted to the `\n`, `\r\n`, `\r`, `\x0b`,
`\x0c` line breaks (the accumulator holds the current line reversed). -/
def pySplitlinesAux (acc : List Char) : List Char → List (List Char)
  | [] => if acc.isEmpty then [] else [acc.reverse]
  | '\r' :: '\n' :: rest => acc.reverse :: pySplitlinesAux [] rest
  | '\r' :: rest => acc.reverse :: pySplitlinesAux [] rest
  | '\n' :: rest => acc.reverse :: pySplitlinesAux [] rest
  | '\x0b' :: rest => acc.reverse :: pySplitlinesAux [] rest
  | '\x0c' :: rest => acc.reverse :: pySplitlinesAux [] rest
  | c :: rest => pySplitlinesAux (c :: acc) rest

/-- Python `str.splitlines`. -/
def pySplitlines (s : String) : List String :=
  (pySplitlinesAux [] s.data).map fun cs => String.mk cs

/-- The literal marker of non-binding jobs in a CI report line. -/
def nonVotingMarker : List Char := "(non-voting)".data

/-- The anchored match `re.match("- (\\S+) http://\\S+ : (\\S+)", line)` of
the source, returning the two capture groups `(job, status)`.

Because each `\\S+` in the pattern is a run of non-whitespace characters that
is immediately followed by a literal space in the pattern, backtracking can
never shorten it below the maximal run (a shorter run would put a
non-whitespace character under the literal space), so the regex is equivalent
to this maximal-munch scan: `"- "`, a maximal non-space run (the job), one
space, a maximal non-space run that starts with `"http://"` and is longer
than it (the URL), `" : "`, and a maximal nonempty non-space run (the
status); the rest of the line is unconstrained (`re.match` anchors only the
start). -/
def job_status_match (cs : List Char) : Option (String × String) :=
  match cs with
  | '-' :: ' ' :: rest =>
      let job := rest.takeWhile fun c => !isPySpace c
      let r1 := rest.dropWhile fun c => !isPySpace c
      if job.isEmpty then none
      else
        match r1 with
        | ' ' :: r2 =>
            let url := r2.takeWhile fun c => !isPySpace c
            let r3 := r2.dropWhile fun c => !isPySpace c
            if isPrefixOfChars "http://".data url && decide (7 < url.length) then
              match r3 with
              | ' ' :: ':' :: ' ' :: r4 =>
                  let st := r4.takeWhile fun c => !isPySpace c
                  if st.isEmpty then none else some (String.mk job, String.mk st)
              | _ => none
            else none
        | _ => none
  | _ => none

/-- One iteration of the line loop of `extract_jobs_from_ci_message`:
component `.1` accumulates `failures`, component `.2` accumulates
`successes`, exactly as the two `append` calls of the source. -/
def ci_line_step (acc : List String × List String) (line : String) :
    List String × List String :=
  if hasSubstr nonVotingMarker line.data then acc
  else
    match job_status_match line.data with
    | none => acc
    | some (job, status) =>
        if status = "SUCCESS" then (acc.1, acc.2 ++ [job])
        else (acc.1 ++ [job], acc.2)

/-- The line loop of `extract_jobs_from_ci_message` over an already-split
list of lines. -/
def extractJobsFromLines (lines : List String) : List String × List String :=
  lines.foldl ci_line_step ([], [])

/-- `extract_jobs_from_ci_message` of the source: returns
`(failures, successes)`. -/
def extract_jobs_from_ci_message (comment : String) : List String × List String :=
  extractJobsFromLines (pySplitlines comment)

/-- `is_flaky_job` of the source: a `none` extra set is replaced by the empty
tuple, then the fixed prefixes are tried, then exact membership in the extra
set (Python `in`). -/
def is_flaky_job (job_name : String) (additional_flaky_jobs : Option (List String)) : Bool :=
  let afj := additional_flaky_jobs.getD []
  pyStartsWith job_name "check-tempest-" ||
  pyStartsWith job_name "check-devstack-" ||
  pyStartsWith job_name "gate-tempest-" ||
  pyStartsWith job_name "gate-devstack-" ||
  pyStartsWith job_name "check-grenade-" ||
  pyStartsWith job_name "gate-grenade-" ||
  decide (job_name ∈ afj)

/-- The literal part of the bug-link pattern
`https://bugs.launchpad.net/bugs/(\\d+)`. -/
def bugLinkLit : List Char := "https://bugs.launchpad.net/bugs/".data

/-- Numeric value of a digit run (Python `int` of the captured digits). -/
def natOfDigits (ds : List Char) : Nat :=
  ds.foldl (fun n c => 10 * n + (c.toNat - '0'.toNat)) 0

/-- Attempt to match the bug-link pattern at the head of the list: the
literal followed by a maximal nonempty digit run (greedy `\\d+`; only ASCII
digits are modelled). -/
def bugMatchAt (cs : List Char) : Option Nat :=
  if isPrefixOfChars bugLinkLit cs then
    let ds := (cs.drop bugLinkLit.length).takeWhile fun c => c.isDigit
    if ds.isEmpty then none else some (natOfDigits ds)
  else none

/-- `re.search` for the bug-link pattern: try every position left to right
and return the first (leftmost) match. -/
def bugSearch : List Char → Option Nat
  | [] => none
  | c :: rest =>
      match bugMatchAt (c :: rest) with
      | some n => some n
      | none => bugSearch rest

/-- `extract_bug_number_from_er_message` of the source. -/
def extract_bug_number_from_er_message (comment : String) : Option Nat :=
  bugSearch comment.data

/-! The gerrit record model.  Every field that the script reads with a plain
dict subscript is an `Option`, so that a record missing that key makes the
corresponding access raise `KeyError`.  Nested lookups that the script always
performs together (`comment['reviewer']['username']`,
`review['owner']['username']`) are collapsed into one `Option`, since either
missing key raises the same `KeyError`. -/

/-- One approval vote of the current patch set (`ap['type']`,
`int(ap['value'])`; the value is modelled already parsed). -/
structure Approval where
  approvalKind : Option String
  value : Option Int

/-- The `currentPatchSet` record. -/
structure PatchSet where
  createdOn : Option Int
  revision : Option String
  approvals : Option (List Approval)

/-- One review comment (`comment['reviewer']['username']`,
`comment['message']`, `comment['timestamp']`). -/
structure Comment where
  reviewer : Option String
  message : Option String
  timestamp : Option Int

/-- A review record (`review['number']` modelled already parsed by `int`). -/
structure Review where
  number : Option Int
  owner : Option String
  subject : Option String
  comments : Option (List Comment)
  currentPatchSet : Option PatchSet

/-- Gerrit constants of the source. -/
def GERRIT_SERVER : String := "review.openstack.org"

/-- Gerrit SSH port of the source. -/
def GERRIT_PORT : Int := 29418

/-- Minimum age (seconds) of the newest comment before acting. -/
def MINIMUM_REVIEW_AGE : Int := 15 * 60

/-- Outcome of the backward comment loop of `retry_with` (lines 194-218):
either the loop hit a comment starting with `"recheck "` and the whole
function returned `(None, None)`, or the loop finished (by boundary, by
finding jenkins, or by exhausting the list) with the final `ci_comment` and
`er_comment` values. -/
inductive ScanOutcome
  | earlyReturn
  | done (ci : Option Comment) (er : Option Comment)

/-- The backward comment loop of `retry_with`: `t` is
`review['currentPatchSet']['createdOn']`, `ci`/`er` are the running
`ci_comment`/`er_comment` (both start as `None`), and the list is
`reversed(comments)`. -/
def scanLoop (t : Int) (ci er : Option Comment) : List Comment → Except PyErr ScanOutcome
  | [] => Except.ok (ScanOutcome.done ci er)
  | c :: rest =>
      match c.timestamp with
      | none => Except.error PyErr.keyError
      | some ts =>
          if ts < t then Except.ok (ScanOutcome.done ci er)
          else
            match c.message with
            | none => Except.error PyErr.keyError
            | some m =>
                if pyStartsWith m "recheck " then Except.ok ScanOutcome.earlyReturn
                else
                  match c.reviewer with
                  | none => Except.error PyErr.keyError
                  | some u =>
                      if u = "elasticrecheck" && ci.isNone then
                        scanLoop t ci (some c) rest
                      else if u = "jenkins" then
                        Except.ok (ScanOutcome.done (some c) er)
                      else scanLoop t ci er rest

/-- Lines 224-250 of `retry_with`, split out of the source function for
proofs: given the located `ci_comment` and `er_comment`, parse the CI report
and produce the `(comment, bug_number)` pair.  A bug number of 0 is falsy in
Python (`if bug_number:`), so it leaves the comment text at
`"recheck no bug"` while still being returned as the bug number. -/
def decide_retry (ci : Comment) (er : Option Comment) (extra : Option (List String)) :
    Except PyErr (Option String × Option Nat) :=
  match ci.message with
  | none => Except.error PyErr.keyError
  | some msg =>
      let fs := extract_jobs_from_ci_message msg
      if fs.2.isEmpty then Except.ok (none, none)
      else if !(fs.1.all fun j => is_flaky_job j extra) then Except.ok (none, none)
      else
        match er with
        | none => Except.ok (some "recheck no bug", none)
        | some erC =>
            match erC.message with
            | none => Except.error PyErr.keyError
            | some em =>
                match extract_bug_number_from_er_message em with
                | none => Except.ok (some "recheck no bug", none)
                | some n =>
                    if n = 0 then Except.ok (some "recheck no bug", some 0)
                    else Except.ok (some ("recheck bug " ++ Nat.repr n), some n)

/-- `retry_with` of the source.  `review.get('comments', [])` tolerates a
missing key; an empty comment list short-circuits to `(None, None)`;
otherwise the loop runs, and on its first iteration Python dereferences both
`comment['timestamp']` and `review['currentPatchSet']['createdOn']`, so
hoisting the patch-set lookup before the loop raises the same `KeyError` in
the same cases. -/
def retry_with (review : Review) (extra : Option (List String)) :
    Except PyErr (Option String × Option Nat) :=
  match review.comments with
  | none => Except.ok (none, none)
  | some [] => Except.ok (none, none)
  | some (c :: rest) =>
      match review.currentPatchSet with
      | none => Except.error PyErr.keyError
      | some ps =>
          match ps.createdOn with
          | none => Except.error PyErr.keyError
          | some t =>
              match scanLoop t none none ((c :: rest).reverse) with
              | Except.error e => Except.error e
              | Except.ok ScanOutcome.earlyReturn => Except.ok (none, none)
              | Except.ok (ScanOutcome.done none _) => Except.ok (none, none)
              | Except.ok (ScanOutcome.done (some ci) er) => decide_retry ci er extra

/-- Python `str.lower` on the ASCII range. -/
def pyLower (s : String) : String :=
  String.mk (s.data.map Char.toLower)

/-- The list comprehension of `should_ignore_review`:
`[int(ap['value']) for ap in approvals if ap['type'] == 'Code-Review']`,
raising in iteration order exactly where Python would. -/
def collectCodeReviews : List Approval → Except PyErr (List Int)
  | [] => Except.ok []
  | ap :: rest =>
      match ap.approvalKind with
      | none => Except.error PyErr.keyError
      | some ty =>
          if ty = "Code-Review" then
            match ap.value with
            | none => Except.error PyErr.keyError
            | some v =>
                match collectCodeReviews rest with
                | Except.error e => Except.error e
                | Except.ok vs => Except.ok (v :: vs)
          else collectCodeReviews rest

/-- Python truthiness of `bug_number` (`None` and `0` are falsy). -/
def bugFalsy : Option Nat → Bool
  | none => true
  | some n => n == 0

/-- The age rule at the end of `should_ignore_review`:
`time.time() - review['comments'][-1]['timestamp']`, with `time.time()`
passed in as `now`. -/
def ageCheck (now : Int) (review : Review) (bug_number : Option Nat) : Except PyErr Bool :=
  match review.comments with
  | none => Except.error PyErr.keyError
  | some cs =>
      match cs.getLast? with
      | none => Except.error PyErr.indexError
      | some lastC =>
          match lastC.timestamp with
          | none => Except.error PyErr.keyError
          | some ts =>
              Except.ok (decide (now - ts < MINIMUM_REVIEW_AGE) && bugFalsy bug_number)

/-- `should_ignore_review` of the source (with `time.time()` as `now`).
Python's `and` short-circuits, so `review['subject']` is only read when the
owner is `proposal-bot`. -/
def should_ignore_review (now : Int) (review : Review) (bug_number : Option Nat) :
    Except PyErr Bool :=
  match review.number with
  | none => Except.error PyErr.keyError
  | some num =>
      if num < 100000 then Except.ok true
      else
        match review.currentPatchSet with
        | none => Except.error PyErr.keyError
        | some ps =>
            match ps.approvals with
            | none => Except.error PyErr.keyError
            | some aps =>
                match collectCodeReviews aps with
                | Except.error e => Except.error e
                | Except.ok crs =>
                    if (-2 : Int) ∈ crs then Except.ok true
                    else
                      match review.owner with
                      | none => Except.error PyErr.keyError
                      | some u =>
                          if u = "proposal-bot" then
                            match review.subject with
                            | none => Except.error PyErr.keyError
                            | some subj =>
                                if hasSubstr "global requirements".data (pyLower subj).data
                                then Except.ok true
                                else ageCheck now review bug_number
                          else ageCheck now review bug_number

/-- The argument vector built by `post_comment` (the message is wrapped in
literal double quotes for the ssh transport). -/
def post_comment_cmd (review_id comment : String) : List String :=
  ["ssh", "-p", "29418", GERRIT_SERVER, "gerrit", "review",
   "--message", "\"" ++ comment ++ "\"", review_id]

/-- The per-review body of `main` (lines 283-298) with `args.post = true` and
`args.debug_review = None`: returns the `(revision, message)` pair handed to
`post_comment`, or `none` when nothing is posted for this review.
`int(review['number'])` is evaluated for the debug comparison before
`retry_with` runs. -/
def main_directive_for_review (now : Int) (review : Review) (extra : Option (List String)) :
    Except PyErr (Option (String × String)) :=
  match review.number with
  | none => Except.error PyErr.keyError
  | some _ =>
      match retry_with review extra with
      | Except.error e => Except.error e
      | Except.ok (none, _) => Except.ok none
      | Except.ok (some c, bn) =>
          match should_ignore_review now review bn with
          | Except.error e => Except.error e
          | Except.ok true => Except.ok none
          | Except.ok false =>
              match review.currentPatchSet with
              | none => Except.error PyErr.keyError
              | some ps =>
                  match ps.revision with
                  | none => Except.error PyErr.keyError
                  | some rev => Except.ok (some (rev, c))

/-! Concrete records, shaped like the docstring examples of the source, used
to instantiate the theorems below on closed inputs. -/

/-- A CI report whose only voting job succeeded. -/
def msgOneSuccess : String :=
  "- gate-swift-pep8 http://logs.openstack.org/1 : SUCCESS in 1m 35s"

/-- A CI report with one success and one non-flaky failure. -/
def msgNonFlakyFail : String :=
  "- gate-swift-docs http://logs.openstack.org/2 : SUCCESS in 2m 26s\n- gate-swift-pep8 http://logs.openstack.org/1 : FAILURE in 1m 35s"

/-- A CI report where every listed job failed. -/
def msgAllFail : String :=
  "- check-tempest-dsvm-full http://logs.openstack.org/3 : FAILURE in 58m 15s"

/-- A CI report with a success and a flaky failure (retry-worthy). -/
def msgRetryWorthy : String :=
  "- gate-swift-pep8 http://logs.openstack.org/1 : SUCCESS in 1m 35s\n- check-tempest-dsvm-full http://logs.openstack.org/3 : FAILURE in 58m 15s"

/-- A CI comment with no parseable job line at all. -/
def msgProseOnly : String :=
  "Build failed.  For information on how to proceed, see http://wiki"

/-- A classification comment whose first (and only) bug link has number 0. -/
def erMsgZero : String :=
  "I noticed jenkins failed, I think you hit bug(s): https://bugs.launchpad.net/bugs/0"

/-- A classification comment with a normal bug link. -/
def erMsgBug : String :=
  "I noticed jenkins failed, I think you hit bug(s): https://bugs.launchpad.net/bugs/1357476"

/-- The patch set of the example reviews: created at time 50, no approvals. -/
def psBasic : PatchSet := ⟨some 50, some "deadbeef", some []⟩

/-- Jenkins comment carrying `msgOneSuccess`. -/
def cJenkinsOneSuccess : Comment := ⟨some "jenkins", some msgOneSuccess, some 100⟩

/-- Jenkins comment carrying `msgNonFlakyFail`. -/
def cJenkinsNonFlaky : Comment := ⟨some "jenkins", some msgNonFlakyFail, some 100⟩

/-- Jenkins comment carrying `msgAllFail`. -/
def cJenkinsAllFail : Comment := ⟨some "jenkins", some msgAllFail, some 100⟩

/-- Jenkins comment carrying `msgRetryWorthy`. -/
def cJenkinsRetryWorthy : Comment := ⟨some "jenkins", some msgRetryWorthy, some 100⟩

/-- A later jenkins comment with no parseable job lines. -/
def cJenkinsProse : Comment := ⟨some "jenkins", some msgProseOnly, some 130⟩

/-- Elastic Recheck comment naming bug 0. -/
def cErZero : Comment := ⟨some "elasticrecheck", some erMsgZero, some 110⟩

/-- Elastic Recheck comment naming bug 1357476. -/
def cErBug : Comment := ⟨some "elasticrecheck", some erMsgBug, some 110⟩

/-- A human comment that already requests a recheck. -/
def cManualRecheck : Comment := ⟨some "bob", some "recheck no bug", some 120⟩

/-- A malformed comment record: the `timestamp` key is missing. -/
def cNoTimestamp : Comment := ⟨some "jenkins", some "Build failed.", none⟩

/-- A well-formed review around the given chronological comment list. -/
def mkReview (cs : List Comment) : Review :=
  ⟨some 200000, some "alice", some "Fix the frobnicator", some cs, some psBasic⟩

/-- Review whose CI report has a non-flaky failure. -/
def exReviewNonFlaky : Review := mkReview [cJenkinsNonFlaky]

/-- Review whose CI report has no successful job. -/
def exReviewAllFail : Review := mkReview [cJenkinsAllFail]

/-- Review whose CI report lists only successes. -/
def exReviewAllSuccess : Review := mkReview [cJenkinsOneSuccess]

/-- Review with an all-success CI report followed by a bug-0 classification. -/
def exReviewZeroBug : Review := mkReview [cJenkinsOneSuccess, cErZero]

/-- Review with a retry-worthy CI report followed by a classification
comment naming bug 1357476. -/
def exReviewBug : Review := mkReview [cJenkinsRetryWorthy, cErBug]

/-- Review whose newest comment is a manual `recheck` request, after a
retry-worthy CI report. -/
def exReviewManual : Review := mkReview [cJenkinsRetryWorthy, cManualRecheck]

/-- Review whose newest jenkins comment has no parseable job lines, while an
older jenkins comment for the same patch set was retry-worthy. -/
def exReviewStale : Review := mkReview [cJenkinsRetryWorthy, cJenkinsProse]

/-- Review whose only comment record is missing its `timestamp` key. -/
def exReviewMalformed : Review := mkReview [cNoTimestamp]

/-- Review record with no `comments` key at all. -/
def exReviewNoComments : Review :=
  ⟨some 200000, some "alice", some "Fix the frobnicator", none, some psBasic⟩

/-! Lemmas about the Job Outcome Parser. -/

/-- A line containing the non-voting marker is skipped by the line loop. -/
theorem ci_line_step_marker {line : String} (acc : List String × List String)
    (h : hasSubstr nonVotingMarker line.data = true) :
    ci_line_step acc line = acc := by
  simp [ci_line_step, h]

/-- A line not matching the job-line pattern is skipped by the line loop. -/
theorem ci_line_step_nomatch {line : String} (acc : List String × List String)
    (h : job_status_match line.data = none) :
    ci_line_step acc line = acc := by
  cases hm : hasSubstr nonVotingMarker line.data <;> simp [ci_line_step, hm, h]

/-- The line loop only appends: one step splits into the incoming accumulator
and the contribution of the line alone. -/
theorem ci_line_step_decomp (acc : List String × List String) (line : String) :
    ci_line_step acc line =
      (acc.1 ++ (ci_line_step ([], []) line).1, acc.2 ++ (ci_line_step ([], []) line).2) := by
  cases h : hasSubstr nonVotingMarker line.data
  · rcases hm : job_status_match line.data with _ | ⟨j, st⟩
    · simp [ci_line_step, h, hm]
    · by_cases hst : st = "SUCCESS" <;> simp [ci_line_step, h, hm, hst]
  · simp [ci_line_step, h]

/-- The whole fold only appends: running it from any accumulator is the
accumulator followed by the run from the empty accumulator. -/
theorem extractJobs_foldl_decomp (l : List String) (acc : List String × List String) :
    l.foldl ci_line_step acc =
      (acc.1 ++ (extractJobsFromLines l).1, acc.2 ++ (extractJobsFromLines l).2) := by
  induction l generalizing acc with
  | nil => simp [extractJobsFromLines]
  | cons x l ih =>
      have hR : extractJobsFromLines (x :: l) =
          ((ci_line_step ([], []) x).1 ++ (extractJobsFromLines l).1,
           (ci_line_step ([], []) x).2 ++ (extractJobsFromLines l).2) := by
        rw [extractJobsFromLines, List.foldl_cons]; exact ih _
      rw [List.foldl_cons, ih (ci_line_step acc x), hR, ci_line_step_decomp acc x]
      simp [List.append_assoc]

/-- Inserting a line that the loop skips does not change the parser output. -/
theorem extract_insert_noop (pre post : List String) (line : String)
    (h : ∀ acc, ci_line_step acc line = acc) :
    extractJobsFromLines (pre ++ line :: post) = extractJobsFromLines (pre ++ post) := by
  unfold extractJobsFromLines
  rw [List.foldl_append, List.foldl_append, List.foldl_cons, h]

/-! Lemmas about the backward comment scan. -/

/-- A comment that the backward scan walks past without stopping: its
timestamp is at or after the patch-set boundary, it is not a manual
`recheck ` comment, and its author is not jenkins. -/
def scanPassive (t : Int) (d : Comment) : Prop :=
  ∃ ts m u, d.timestamp = some ts ∧ ¬ ts < t ∧ d.message = some m ∧
    pyStartsWith m "recheck " = false ∧ d.reviewer = some u ∧ u ≠ "jenkins"

/-- The scan walks past a block of passive comments, only possibly updating
the running `er_comment`. -/
theorem scanLoop_append_passive (t : Int) (pre : List Comment) (tail : List Comment)
    (er : Option Comment) (hpre : ∀ d ∈ pre, scanPassive t d) :
    ∃ er2, scanLoop t none er (pre ++ tail) = scanLoop t none er2 tail := by
  induction pre generalizing er with
  | nil => exact ⟨er, rfl⟩
  | cons d pre ih =>
      obtain ⟨ts, m, u, hts, hlt, hm, hrs, hu, hju⟩ := hpre d (List.mem_cons_self d pre)
      have hrest : ∀ x ∈ pre, scanPassive t x := fun x hx => hpre x (List.mem_cons_of_mem d hx)
      have hstep : scanLoop t none er ((d :: pre) ++ tail) =
          if u = "elasticrecheck" then scanLoop t none (some d) (pre ++ tail)
          else scanLoop t none er (pre ++ tail) := by
        rw [List.cons_append]
        simp only [scanLoop, hts, hm, hu, if_neg hlt, hrs]
        by_cases he : u = "elasticrecheck" <;> simp [he, hju]
      by_cases he : u = "elasticrecheck"
      · obtain ⟨er2, h2⟩ := ih (some d) hrest
        exact ⟨er2, by rw [hstep, if_pos he]; exact h2⟩
      · obtain ⟨er2, h2⟩ := ih er hrest
        exact ⟨er2, by rw [hstep, if_neg he]; exact h2⟩

/-- Hitting a comment that starts with `recheck ` aborts the scan. -/
theorem scanLoop_recheck_head (t : Int) (er : Option Comment) (c : Comment)
    (rest : List Comment) (ts : Int) (m : String)
    (hts : c.timestamp = some ts) (hlt : ¬ ts < t) (hm : c.message = some m)
    (hrs : pyStartsWith m "recheck " = true) :
    scanLoop t none er (c :: rest) = Except.ok ScanOutcome.earlyReturn := by
  simp [scanLoop, hts, hm, if_neg hlt, hrs]

/-- Hitting a jenkins comment ends the scan with it as the CI comment. -/
theorem scanLoop_jenkins_head (t : Int) (er : Option Comment) (c : Comment)
    (rest : List Comment) (ts : Int) (m : String)
    (hts : c.timestamp = some ts) (hlt : ¬ ts < t) (hm : c.message = some m)
    (hrs : pyStartsWith m "recheck " = false) (hu : c.reviewer = some "jenkins") :
    scanLoop t none er (c :: rest) = Except.ok (ScanOutcome.done (some c) er) := by
  simp [scanLoop, hts, hm, if_neg hlt, hrs, hu]

/-- Any comment reported as `er_comment` by the scan either was the incoming
one or is an elasticrecheck-authored member of the scanned list. -/
theorem scanLoop_er_mem (l : List Comment) (t : Int) (ci er ci2 : Option Comment) (e : Comment)
    (h : scanLoop t ci er l = Except.ok (ScanOutcome.done ci2 (some e))) :
    er = some e ∨ (e ∈ l ∧ e.reviewer = some "elasticrecheck") := by
  induction l generalizing ci er with
  | nil =>
      simp only [scanLoop, Except.ok.injEq, ScanOutcome.done.injEq] at h
      exact Or.inl h.2
  | cons c rest ih =>
      rcases hts : c.timestamp with _ | ts
      · exact absurd h (by simp [scanLoop, hts])
      · by_cases hlt : ts < t
        · rw [show scanLoop t ci er (c :: rest) = Except.ok (ScanOutcome.done ci er) from by
            simp [scanLoop, hts, hlt]] at h
          simp only [Except.ok.injEq, ScanOutcome.done.injEq] at h
          exact Or.inl h.2
        · rcases hm : c.message with _ | m
          · exact absurd h (by simp [scanLoop, hts, hlt, hm])
          · by_cases hrs : pyStartsWith m "recheck " = true
            · exact absurd h (by simp [scanLoop, hts, hlt, hm, hrs])
            · have hrs2 : pyStartsWith m "recheck " = false := by simpa using hrs
              rcases hu : c.reviewer with _ | u
              · exact absurd h (by simp [scanLoop, hts, hlt, hm, hrs2, hu])
              · by_cases he : u = "elasticrecheck"
                · rcases ci with _ | ciC
                  · rw [show scanLoop t none er (c :: rest) = scanLoop t none (some c) rest from by
                      simp [scanLoop, hts, hlt, hm, hrs2, hu, he]] at h
                    rcases ih none (some c) h with h2 | h2
                    · have hce : c = e := by simpa using h2
                      subst hce
                      refine Or.inr ⟨List.mem_cons_self c rest, ?_⟩
                      rw [hu, he]
                    · exact Or.inr ⟨List.mem_cons_of_mem c h2.1, h2.2⟩
                  · rw [show scanLoop t (some ciC) er (c :: rest) = scanLoop t (some ciC) er rest from by
                      simp [scanLoop, hts, hlt, hm, hrs2, hu, he]] at h
                    rcases ih (some ciC) er h with h2 | h2
                    · exact Or.inl h2
                    · exact Or.inr ⟨List.mem_cons_of_mem c h2.1, h2.2⟩
                · by_cases hj : u = "jenkins"
                  · rw [show scanLoop t ci er (c :: rest) = Except.ok (ScanOutcome.done (some c) er) from by
                      simp [scanLoop, hts, hlt, hm, hrs2, hu, he, hj]] at h
                    simp only [Except.ok.injEq, ScanOutcome.done.injEq] at h
                    exact Or.inl h.2
                  · rw [show scanLoop t ci er (c :: rest) = scanLoop t ci er rest from by
                      simp [scanLoop, hts, hlt, hm, hrs2, hu, he, hj]] at h
                    rcases ih ci er h with h2 | h2
                    · exact Or.inl h2
                    · exact Or.inr ⟨List.mem_cons_of_mem c h2.1, h2.2⟩

/-- When a located jenkins comment is reported by the scan, `retry_with` is
the decision on it. -/
theorem retry_with_located (review : Review) (extra : Option (List String))
    (cs : List Comment) (ps : PatchSet) (t : Int) (ci : Comment) (er : Option Comment)
    (hcs : review.comments = some cs) (hps : review.currentPatchSet = some ps)
    (ht : ps.createdOn = some t)
    (hscan : scanLoop t none none cs.reverse = Except.ok (ScanOutcome.done (some ci) er)) :
    retry_with review extra = decide_retry ci er extra := by
  rcases cs with _ | ⟨c, rest⟩
  · exact absurd hscan (by simp [scanLoop])
  · simp only [retry_with, hcs, hps, ht, hscan]

/-- When the scan aborts on a manual `recheck ` comment, `retry_with`
returns `(None, None)`. -/
theorem retry_with_early (review : Review) (extra : Option (List String))
    (cs : List Comment) (ps : PatchSet) (t : Int)
    (hcs : review.comments = some cs) (hps : review.currentPatchSet = some ps)
    (ht : ps.createdOn = some t)
    (hscan : scanLoop t none none cs.reverse = Except.ok ScanOutcome.earlyReturn) :
    retry_with review extra = Except.ok (none, none) := by
  rcases cs with _ | ⟨c, rest⟩
  · exact absurd hscan (by simp [scanLoop])
  · simp only [retry_with, hcs, hps, ht, hscan]

/-- With no successful job in the CI report, the decision is `(None, None)`. -/
theorem decide_retry_no_success (ci : Comment) (er : Option Comment)
    (extra : Option (List String)) (msg : String) (hmsg : ci.message = some msg)
    (hempty : (extract_jobs_from_ci_message msg).2 = []) :
    decide_retry ci er extra = Except.ok (none, none) := by
  simp [decide_retry, hmsg, hempty]

/-- With a non-flaky job among the failures, the decision is `(None, None)`. -/
theorem decide_retry_nonflaky (ci : Comment) (er : Option Comment)
    (extra : Option (List String)) (msg : String) (j : String)
    (hmsg : ci.message = some msg)
    (hj : j ∈ (extract_jobs_from_ci_message msg).1)
    (hnf : is_flaky_job j extra = false) :
    decide_retry ci er extra = Except.ok (none, none) := by
  have hall : ((extract_jobs_from_ci_message msg).1.all fun x => is_flaky_job x extra) = false := by
    cases hA : (extract_jobs_from_ci_message msg).1.all fun x => is_flaky_job x extra
    · rfl
    · exact absurd (List.all_eq_true.mp hA j hj) (by simp [hnf])
  by_cases h2 : (extract_jobs_from_ci_message msg).2.isEmpty = true
  · simp [decide_retry, hmsg, h2]
  · simp [decide_retry, hmsg, h2, hall]

/-- With successes present, all failures flaky, and no classification
comment, the decision is `recheck no bug`. -/
theorem decide_retry_nobug (ci : Comment) (extra : Option (List String)) (msg : String)
    (hmsg : ci.message = some msg)
    (hsucc : (extract_jobs_from_ci_message msg).2 ≠ [])
    (hall : ((extract_jobs_from_ci_message msg).1.all fun x => is_flaky_job x extra) = true) :
    decide_retry ci none extra = Except.ok (some "recheck no bug", none) := by
  have h2 : (extract_jobs_from_ci_message msg).2.isEmpty = false := by
    rcases hv : (extract_jobs_from_ci_message msg).2 with _ | ⟨x, xs⟩
    · exact absurd hv hsucc
    · rfl
  simp [decide_retry, hmsg, h2, hall]

/-- A CI comment none of whose lines is a voting job line parses to two
empty outcome sets. -/
theorem extractJobs_all_skipped (lines : List String)
    (h : ∀ line ∈ lines,
        hasSubstr nonVotingMarker line.data = true ∨ job_status_match line.data = none) :
    extractJobsFromLines lines = ([], []) := by
  induction lines with
  | nil => rfl
  | cons x l ih =>
      have hx : ci_line_step ([], []) x = ([], []) := by
        rcases h x (List.mem_cons_self x l) with hx | hx
        · exact ci_line_step_marker _ hx
        · exact ci_line_step_nomatch _ hx
      rw [extractJobsFromLines, List.foldl_cons, hx]
      exact ih fun y hy => h y (List.mem_cons_of_mem x hy)

/-- The leftmost-match semantics of `re.search`: `bugSearch` returns `n`
exactly when the pattern matches at some position with value `n` and at no
earlier position. -/
theorem bugSearch_leftmost (cs : List Char) (n : Nat) :
    bugSearch cs = some n ↔
      ∃ i, bugMatchAt (cs.drop i) = some n ∧ ∀ j2 < i, bugMatchAt (cs.drop j2) = none := by
  induction cs with
  | nil =>
      constructor
      · intro h; exact absurd h (by simp [bugSearch])
      · rintro ⟨i, hi, -⟩
        rw [List.drop_nil] at hi
        rw [show bugMatchAt [] = none from by decide] at hi
        cases hi
  | cons ch rest ih =>
      cases hm : bugMatchAt (ch :: rest) with
      | some m =>
          simp only [bugSearch, hm]
          constructor
          · intro h
            refine ⟨0, ?_, ?_⟩
            · rw [List.drop_zero, hm]; exact h
            · intro j2 hj2; exact absurd hj2 (Nat.not_lt_zero j2)
          · rintro ⟨i, hi, hmin⟩
            cases i with
            | zero => rw [List.drop_zero, hm] at hi; exact hi
            | succ k =>
                have := hmin 0 (Nat.succ_pos k)
                rw [List.drop_zero, hm] at this
                cases this
      | none =>
          simp only [bugSearch, hm]
          rw [ih]
          constructor
          · rintro ⟨i, hi, hmin⟩
            refine ⟨i + 1, ?_, ?_⟩
            · rw [List.drop_succ_cons]; exact hi
            · intro j2 hj2
              cases j2 with
              | zero => rw [List.drop_zero]; exact hm
              | succ k => rw [List.drop_succ_cons]; exact hmin k (Nat.lt_of_succ_lt_succ hj2)
          · rintro ⟨i, hi, hmin⟩
            cases i with
            | zero => rw [List.drop_zero, hm] at hi; cases hi
            | succ k =>
                refine ⟨k, ?_, ?_⟩
                · rw [List.drop_succ_cons] at hi; exact hi
                · intro j2 hj2
                  have := hmin (j2 + 1) (Nat.succ_lt_succ hj2)
                  rw [List.drop_succ_cons] at this
                  exact this

/-- Shape of the pair returned by `retry_with` whenever it returns a
directive: the text is the fixed literal, or `recheck bug <n>` with `n` the
nonzero bug number extracted from an elasticrecheck comment of the review
(a zero bug number is falsy in Python and leaves the text at
`recheck no bug`). -/
theorem retry_with_comment_shape (review : Review) (extra : Option (List String))
    (c : String) (bn : Option Nat)
    (h : retry_with review extra = Except.ok (some c, bn)) :
    (c = "recheck no bug" ∧ (bn = none ∨ bn = some 0)) ∨
    (∃ n, bn = some n ∧ n ≠ 0 ∧ c = "recheck bug " ++ Nat.repr n ∧
      ∃ cs, review.comments = some cs ∧ ∃ e ∈ cs, e.reviewer = some "elasticrecheck" ∧
        ∃ em, e.message = some em ∧ extract_bug_number_from_er_message em = some n) := by
  rcases hcs : review.comments with _ | cs
  · rw [retry_with] at h; rw [hcs] at h; simp at h
  · rcases cs with _ | ⟨c0, rest⟩
    · simp only [retry_with, hcs] at h; simp at h
    · simp only [retry_with, hcs] at h
      rcases hps : review.currentPatchSet with _ | ps
      · simp only [hps] at h; simp at h
      · simp only [hps] at h
        rcases ht : ps.createdOn with _ | t
        · simp only [ht] at h; simp at h
        · simp only [ht] at h
          rcases hscan : scanLoop t none none ((c0 :: rest).reverse) with e | sc
          · simp only [hscan] at h; simp at h
          · rcases sc with _ | ⟨cio, er⟩
            · simp only [hscan] at h; simp at h
            · rcases cio with _ | ci
              · simp only [hscan] at h; simp at h
              · simp only [hscan] at h
                rcases hmsg : ci.message with _ | msg
                · rw [show decide_retry ci er extra = Except.error PyErr.keyError from by
                    simp [decide_retry, hmsg]] at h
                  simp at h
                · cases h2 : (extract_jobs_from_ci_message msg).2.isEmpty
                  · cases hall : (extract_jobs_from_ci_message msg).1.all fun x =>
                        is_flaky_job x extra
                    · rw [show decide_retry ci er extra = Except.ok (none, none) from by
                        simp [decide_retry, hmsg, h2, hall]] at h
                      simp at h
                    · rcases her : er with _ | erC
                      · rw [her] at h
                        rw [show decide_retry ci none extra =
                            Except.ok (some "recheck no bug", none) from by
                          simp [decide_retry, hmsg, h2, hall]] at h
                        simp only [Except.ok.injEq, Prod.mk.injEq, Option.some.injEq] at h
                        exact Or.inl ⟨h.1.symm, Or.inl h.2.symm⟩
                      · rw [her] at h
                        rcases hem : erC.message with _ | em
                        · rw [show decide_retry ci (some erC) extra =
                              Except.error PyErr.keyError from by
                            simp [decide_retry, hmsg, h2, hall, hem]] at h
                          simp at h
                        · rcases hbug : extract_bug_number_from_er_message em with _ | n
                          · rw [show decide_retry ci (some erC) extra =
                                Except.ok (some "recheck no bug", none) from by
                              simp [decide_retry, hmsg, h2, hall, hem, hbug]] at h
                            simp only [Except.ok.injEq, Prod.mk.injEq, Option.some.injEq] at h
                            exact Or.inl ⟨h.1.symm, Or.inl h.2.symm⟩
                          · by_cases hz : n = 0
                            · rw [show decide_retry ci (some erC) extra =
                                  Except.ok (some "recheck no bug", some 0) from by
                                simp [decide_retry, hmsg, h2, hall, hem, hbug, hz]] at h
                              simp only [Except.ok.injEq, Prod.mk.injEq,
                                Option.some.injEq] at h
                              exact Or.inl ⟨h.1.symm, Or.inr h.2.symm⟩
                            · rw [show decide_retry ci (some erC) extra =
                                  Except.ok (some ("recheck bug " ++ Nat.repr n), some n) from by
                                simp [decide_retry, hmsg, h2, hall, hem, hbug, hz]] at h
                              simp only [Except.ok.injEq, Prod.mk.injEq,
                                Option.some.injEq] at h
                              refine Or.inr ⟨n, h.2.symm, hz, h.1.symm, c0 :: rest, rfl,
                                erC, ?_, ?_, em, hem, hbug⟩
                              · rw [her] at hscan
                                rcases scanLoop_er_mem ((c0 :: rest).reverse) t none none
                                    (some ci) erC hscan with h3 | h3
                                · cases h3
                                · exact List.mem_reverse.mp h3.1
                              · rw [her] at hscan
                                rcases scanLoop_er_mem ((c0 :: rest).reverse) t none none
                                    (some ci) erC hscan with h3 | h3
                                · cases h3
                                · exact h3.2
                  · rw [show decide_retry ci er extra = Except.ok (none, none) from by
                      simp [decide_retry, hmsg, h2]] at h
                    simp at h

/-- The per-review body of `main` passes the comment text of `retry_with`
to `post_comment` verbatim. -/
theorem main_directive_verbatim (now : Int) (review : Review)
    (extra : Option (List String)) (rev c : String)
    (h : main_directive_for_review now review extra = Except.ok (some (rev, c))) :
    ∃ bn, retry_with review extra = Except.ok (some c, bn) := by
  rcases hnum : review.number with _ | num
  · simp only [main_directive_for_review, hnum] at h; simp at h
  · simp only [main_directive_for_review, hnum] at h
    rcases hr : retry_with review extra with e | p
    · simp only [hr] at h; simp at h
    · rcases p with ⟨co, bn⟩
      rcases co with _ | c2
      · simp only [hr] at h; simp at h
      · simp only [hr] at h
        rcases hig : should_ignore_review now review bn with e | b
        · simp only [hig] at h; simp at h
        · cases b
          · simp only [hig] at h
            rcases hps : review.currentPatchSet with _ | ps
            · simp only [hps] at h; simp at h
            · simp only [hps] at h
              rcases hrv : ps.revision with _ | rv
              · simp only [hrv] at h; simp at h
              · simp only [hrv] at h
                simp only [Except.ok.injEq, Option.some.injEq, Prod.mk.injEq] at h
                exact ⟨bn, by rw [h.2]⟩
          · simp only [hig] at h; simp at h

/-! The claim theorems. -/

/-- C1: for every review whose backward scan locates a CI comment, if some
job in the parsed failures set is not classified as flaky for the given
extra-flaky set, `retry_with` returns the NoAction verdict `(None, None)`. -/
theorem c1_nonflaky_failure_noaction (review : Review) (extra : Option (List String))
    (cs : List Comment) (ps : PatchSet) (t : Int) (ci : Comment) (er : Option Comment)
    (msg : String) (j : String)
    (hcs : review.comments = some cs) (hps : review.currentPatchSet = some ps)
    (ht : ps.createdOn = some t)
    (hscan : scanLoop t none none cs.reverse = Except.ok (ScanOutcome.done (some ci) er))
    (hmsg : ci.message = some msg)
    (hj : j ∈ (extract_jobs_from_ci_message msg).1)
    (hnf : is_flaky_job j extra = false) :
    retry_with review extra = Except.ok (none, none) := by
  rw [retry_with_located review extra cs ps t ci er hcs hps ht hscan]
  exact decide_retry_nonflaky ci er extra msg j hmsg hj hnf

/-- C1 witness: a review whose CI report has the non-flaky failure
`gate-swift-pep8` yields NoAction. -/
theorem c1_witness : retry_with exReviewNonFlaky none = Except.ok (none, none) :=
  c1_nonflaky_failure_noaction exReviewNonFlaky none [cJenkinsNonFlaky] psBasic 50
    cJenkinsNonFlaky none msgNonFlakyFail "gate-swift-pep8" rfl rfl rfl rfl rfl
    (by decide) (by decide)

/-- C2: for every review whose backward scan locates a CI comment, if the
parsed successes set is empty then `retry_with` returns `(None, None)`,
whatever the failures set contains. -/
theorem c2_no_success_noaction (review : Review) (extra : Option (List String))
    (cs : List Comment) (ps : PatchSet) (t : Int) (ci : Comment) (er : Option Comment)
    (msg : String)
    (hcs : review.comments = some cs) (hps : review.currentPatchSet = some ps)
    (ht : ps.createdOn = some t)
    (hscan : scanLoop t none none cs.reverse = Except.ok (ScanOutcome.done (some ci) er))
    (hmsg : ci.message = some msg)
    (hempty : (extract_jobs_from_ci_message msg).2 = []) :
    retry_with review extra = Except.ok (none, none) := by
  rw [retry_with_located review extra cs ps t ci er hcs hps ht hscan]
  exact decide_retry_no_success ci er extra msg hmsg hempty

/-- C2 witness: a review whose CI report lists only failures yields
NoAction. -/
theorem c2_witness : retry_with exReviewAllFail none = Except.ok (none, none) :=
  c2_no_success_noaction exReviewAllFail none [cJenkinsAllFail] psBasic 50
    cJenkinsAllFail none msgAllFail rfl rfl rfl rfl rfl (by decide)

/-- C3 counterexample: on a review whose located CI comment parses to a
non-empty successes set and an empty failures set, `retry_with` returns the
directive `recheck no bug`, not the NoAction verdict `(None, None)`. -/
theorem c3_counterexample :
    extract_jobs_from_ci_message msgOneSuccess = ([], ["gate-swift-pep8"]) ∧
    retry_with exReviewAllSuccess none = Except.ok (some "recheck no bug", none) :=
  ⟨rfl, rfl⟩

/-- C3 amended: for every review whose located CI comment parses to a
non-empty successes set and an empty failures set (and whose scan found no
classification comment), the verdict is RetryNoBug with directive text
`recheck no bug` — the engine does not distinguish "nothing failed" from
"all failures flaky". -/
theorem c3_amended_all_success_recheck (review : Review) (extra : Option (List String))
    (cs : List Comment) (ps : PatchSet) (t : Int) (ci : Comment) (msg : String)
    (hcs : review.comments = some cs) (hps : review.currentPatchSet = some ps)
    (ht : ps.createdOn = some t)
    (hscan : scanLoop t none none cs.reverse = Except.ok (ScanOutcome.done (some ci) none))
    (hmsg : ci.message = some msg)
    (hfail : (extract_jobs_from_ci_message msg).1 = [])
    (hsucc : (extract_jobs_from_ci_message msg).2 ≠ []) :
    retry_with review extra = Except.ok (some "recheck no bug", none) := by
  rw [retry_with_located review extra cs ps t ci none hcs hps ht hscan]
  exact decide_retry_nobug ci extra msg hmsg hsucc (by rw [hfail]; rfl)

/-- C3 witness: the all-success review yields the `recheck no bug`
directive. -/
theorem c3_witness : retry_with exReviewAllSuccess none = Except.ok (some "recheck no bug", none) :=
  c3_amended_all_success_recheck exReviewAllSuccess none [cJenkinsOneSuccess] psBasic 50
    cJenkinsOneSuccess msgOneSuccess rfl rfl rfl rfl rfl (by decide) (by decide)

/-- C4 counterexample: a review whose only comment record is missing its
`timestamp` key makes `retry_with` raise `KeyError` instead of yielding
NoAction. -/
theorem c4_counterexample :
    retry_with exReviewMalformed none = Except.error PyErr.keyError := rfl

/-- C4 amended: the decision path tolerates only a missing or empty
`comments` field, which yields NoAction without raising; a scanned comment
missing an expected key (such as `timestamp`) raises `KeyError` instead. -/
theorem c4_amended_missing_comments_noaction (review : Review) (extra : Option (List String))
    (h : review.comments = none ∨ review.comments = some []) :
    retry_with review extra = Except.ok (none, none) := by
  rcases h with h | h <;> simp [retry_with, h]

/-- C4 witness: a review with no `comments` key yields NoAction. -/
theorem c4_witness : retry_with exReviewNoComments none = Except.ok (none, none) :=
  c4_amended_missing_comments_noaction exReviewNoComments none (Or.inl rfl)

/-- The voting job line and the non-voting line of the C5 counterexample
share the job name `j`. -/
def aliasLine : String := "- j http://u : FAILURE (non-voting)"

/-- A CI report in which the job of a non-voting line also appears on a
voting line. -/
def aliasText : String := "- j http://u : SUCCESS\n- j http://u : FAILURE (non-voting)"

/-- C5 counterexample: in `aliasText` the line `aliasLine` contains the
non-voting marker and names job `j`, yet `j` is in the successes set (it
also appears on a voting line), so "its job appears in neither set" fails. -/
theorem c5_counterexample :
    aliasLine ∈ pySplitlines aliasText ∧
    hasSubstr nonVotingMarker aliasLine.data = true ∧
    job_status_match aliasLine.data = some ("j", "FAILURE") ∧
    "j" ∈ (extract_jobs_from_ci_message aliasText).2 := by
  refine ⟨by decide, rfl, rfl, by decide⟩

/-- C5 amended: a line containing the non-voting marker contributes to
neither outcome set — deleting it leaves the parser output unchanged, and on
its own it yields two empty sets (its job can still enter a set through a
different, voting line naming the same job). -/
theorem c5_amended_nonvoting_contributes_nothing (pre post : List String) (line : String)
    (h : hasSubstr nonVotingMarker line.data = true) :
    extractJobsFromLines (pre ++ line :: post) = extractJobsFromLines (pre ++ post) ∧
    extractJobsFromLines [line] = ([], []) := by
  refine ⟨extract_insert_noop pre post line (fun acc => ci_line_step_marker acc h), ?_⟩
  rw [extractJobsFromLines, List.foldl_cons, ci_line_step_marker _ h]
  rfl

/-- C5 witness: deleting the non-voting `aliasLine` from a report leaves the
outcome sets unchanged. -/
theorem c5_witness :
    extractJobsFromLines (["- gate-swift-docs http://u : SUCCESS"] ++ aliasLine :: []) =
      extractJobsFromLines (["- gate-swift-docs http://u : SUCCESS"] ++ []) ∧
    extractJobsFromLines [aliasLine] = ([], []) :=
  c5_amended_nonvoting_contributes_nothing ["- gate-swift-docs http://u : SUCCESS"] [] aliasLine rfl

/-- C6 counterexample: a job line whose URL uses the `https` scheme is
ignored entirely (the regex demands the literal `http://`), so "any URL" is
false: the same line with `http://` is recorded as a failure. -/
theorem c6_counterexample :
    extract_jobs_from_ci_message "- gate-swift-pep8 https://logs.openstack.org/1 : FAILURE" =
      ([], []) ∧
    extract_jobs_from_ci_message "- gate-swift-pep8 http://logs.openstack.org/1 : FAILURE" =
      (["gate-swift-pep8"], []) := ⟨rfl, rfl⟩

/-- C6 amended: every line matching `- <job-name> <url> : <status>` whose
URL starts with the literal `http://` and which does not contain the
non-voting marker is recorded — in the successes set exactly when the status
token equals `SUCCESS`, in the failures set otherwise — and every line not
matching the pattern contributes nothing. -/
theorem c6_amended_job_line_recorded :
    (∀ (pre post : List String) (line j st : String),
        hasSubstr nonVotingMarker line.data = false →
        job_status_match line.data = some (j, st) →
        extractJobsFromLines [line] =
          (if st = "SUCCESS" then ([], [j]) else ([j], [])) ∧
        (st = "SUCCESS" → j ∈ (extractJobsFromLines (pre ++ line :: post)).2) ∧
        (st ≠ "SUCCESS" → j ∈ (extractJobsFromLines (pre ++ line :: post)).1)) ∧
    (∀ (pre post : List String) (line : String),
        job_status_match line.data = none →
        extractJobsFromLines (pre ++ line :: post) = extractJobsFromLines (pre ++ post)) := by
  constructor
  · intro pre post line j st hnv hm
    have hstep : ∀ acc : List String × List String,
        ci_line_step acc line =
          if st = "SUCCESS" then (acc.1, acc.2 ++ [j]) else (acc.1 ++ [j], acc.2) := by
      intro acc
      by_cases hst : st = "SUCCESS" <;> simp [ci_line_step, hnv, hm, hst]
    refine ⟨?_, ?_, ?_⟩
    · rw [extractJobsFromLines, List.foldl_cons, hstep]
      by_cases hst : st = "SUCCESS" <;> simp [hst]
    · intro hst
      rw [extractJobsFromLines, List.foldl_append, List.foldl_cons, hstep, if_pos hst,
        extractJobs_foldl_decomp]
      simp
    · intro hst
      rw [extractJobsFromLines, List.foldl_append, List.foldl_cons, hstep, if_neg hst,
        extractJobs_foldl_decomp]
      simp
  · intro pre post line hm
    exact extract_insert_noop pre post line fun acc => ci_line_step_nomatch acc hm

/-- C6 witness: a failing voting job line with an `http://` URL puts its job
in the failures set. -/
theorem c6_witness :
    (extractJobsFromLines ["- check-swift-dsvm-functional http://logs/2 : FAILURE"] =
      (if "FAILURE" = "SUCCESS" then ([], ["check-swift-dsvm-functional"])
       else (["check-swift-dsvm-functional"], []))) ∧
    ("FAILURE" = "SUCCESS" → "check-swift-dsvm-functional" ∈
      (extractJobsFromLines
        ([] ++ "- check-swift-dsvm-functional http://logs/2 : FAILURE" :: [])).2) ∧
    ("FAILURE" ≠ "SUCCESS" → "check-swift-dsvm-functional" ∈
      (extractJobsFromLines
        ([] ++ "- check-swift-dsvm-functional http://logs/2 : FAILURE" :: [])).1) :=
  c6_amended_job_line_recorded.1 [] [] "- check-swift-dsvm-functional http://logs/2 : FAILURE"
    "check-swift-dsvm-functional" "FAILURE" rfl rfl

/-- C7 counterexample: a classification comment whose first bug link has the
numeric identifier 0 yields a bug number (`some 0`) but the directive text
`recheck no bug`, not `recheck bug 0` — bug number 0 is falsy in Python. -/
theorem c7_counterexample :
    extract_bug_number_from_er_message erMsgZero = some 0 ∧
    retry_with exReviewZeroBug none = Except.ok (some "recheck no bug", some 0) :=
  ⟨rfl, rfl⟩

/-- C7 amended: whenever a retry verdict is reached, the directive text is
exactly `recheck no bug`, or exactly `recheck bug <digits>` for a nonzero
bug number extracted from an elasticrecheck comment of the review (a zero
first link yields `recheck no bug` while still reporting bug number 0); the
extractor returns the leftmost match in document order; and the per-review
body of `main` passes the directive text to `post_comment` verbatim. -/
theorem c7_amended_directive_text :
    (∀ (review : Review) (extra : Option (List String)) (c : String) (bn : Option Nat),
        retry_with review extra = Except.ok (some c, bn) →
        (c = "recheck no bug" ∧ (bn = none ∨ bn = some 0)) ∨
        (∃ n, bn = some n ∧ n ≠ 0 ∧ c = "recheck bug " ++ Nat.repr n ∧
          ∃ cs, review.comments = some cs ∧ ∃ e ∈ cs, e.reviewer = some "elasticrecheck" ∧
            ∃ em, e.message = some em ∧ extract_bug_number_from_er_message em = some n)) ∧
    (∀ (em : String) (n : Nat),
        extract_bug_number_from_er_message em = some n ↔
          ∃ i, bugMatchAt (em.data.drop i) = some n ∧
            ∀ j2 < i, bugMatchAt (em.data.drop j2) = none) ∧
    (∀ (now : Int) (review : Review) (extra : Option (List String)) (rev c : String),
        main_directive_for_review now review extra = Except.ok (some (rev, c)) →
        ∃ bn, retry_with review extra = Except.ok (some c, bn)) :=
  ⟨retry_with_comment_shape, fun em n => bugSearch_leftmost em.data n,
   main_directive_verbatim⟩

/-- C7 witness: on the concrete bug-1357476 review, `main` posts exactly the
comment text that `retry_with` produced. -/
theorem c7_witness :
    ∃ bn, retry_with exReviewBug none = Except.ok (some "recheck bug 1357476", bn) :=
  c7_amended_directive_text.2.2 5000 exReviewBug none "deadbeef" "recheck bug 1357476" rfl

/-- C8: if the backward scan, before the patch-set boundary and before any
jenkins comment, meets a comment whose text starts with `recheck `, the scan
aborts and the verdict is NoAction, whatever the remaining (older) comments
contain. -/
theorem c8_manual_recheck_noaction (review : Review) (extra : Option (List String))
    (cs : List Comment) (ps : PatchSet) (t : Int)
    (pre : List Comment) (cm : Comment) (rest : List Comment)
    (hcs : review.comments = some cs) (hps : review.currentPatchSet = some ps)
    (ht : ps.createdOn = some t)
    (hrev : cs.reverse = pre ++ cm :: rest)
    (hpre : ∀ d ∈ pre, scanPassive t d)
    (hts : ∃ ts, cm.timestamp = some ts ∧ ¬ ts < t)
    (hm : ∃ m, cm.message = some m ∧ pyStartsWith m "recheck " = true) :
    retry_with review extra = Except.ok (none, none) := by
  obtain ⟨ts, hts1, hts2⟩ := hts
  obtain ⟨m, hm1, hm2⟩ := hm
  obtain ⟨er2, hred⟩ := scanLoop_append_passive t pre (cm :: rest) none hpre
  have hscan : scanLoop t none none cs.reverse = Except.ok ScanOutcome.earlyReturn := by
    rw [hrev, hred, scanLoop_recheck_head t er2 cm rest ts m hts1 hts2 hm1 hm2]
  exact retry_with_early review extra cs ps t hcs hps ht hscan

/-- C8 witness: a review whose newest comment starts with `recheck ` yields
NoAction although an older retry-worthy jenkins comment exists. -/
theorem c8_witness : retry_with exReviewManual none = Except.ok (none, none) :=
  c8_manual_recheck_noaction exReviewManual none [cJenkinsRetryWorthy, cManualRecheck]
    psBasic 50 [] cManualRecheck [cJenkinsRetryWorthy] rfl rfl rfl rfl
    (by simp) ⟨120, rfl, by decide⟩ ⟨"recheck no bug", rfl, rfl⟩

/-- C9: the Flakiness Classifier treats an absent extra set as the empty
set, and adding a name to the extra set changes the classification of no
other name while making the added name itself flaky (totality and
determinism hold because `is_flaky_job` is a Lean function). -/
theorem c9_flaky_classifier (j n : String) (extra : List String) (h : j ≠ n) :
    (∀ name, is_flaky_job name none = is_flaky_job name (some [])) ∧
    is_flaky_job j (some (n :: extra)) = is_flaky_job j (some extra) ∧
    is_flaky_job n (some (n :: extra)) = true := by
  refine ⟨fun name => rfl, ?_, ?_⟩
  · simp [is_flaky_job, List.mem_cons, h]
  · simp [is_flaky_job, List.mem_cons]

/-- C9 witness: adding `check-swift-dsvm-functional` to the extra set leaves
`gate-swift-pep8` non-flaky and makes the added name flaky. -/
theorem c9_witness :
    (∀ name, is_flaky_job name none = is_flaky_job name (some [])) ∧
    is_flaky_job "gate-swift-pep8" (some ("check-swift-dsvm-functional" :: [])) =
      is_flaky_job "gate-swift-pep8" (some []) ∧
    is_flaky_job "check-swift-dsvm-functional" (some ("check-swift-dsvm-functional" :: [])) =
      true :=
  c9_flaky_classifier "gate-swift-pep8" "check-swift-dsvm-functional" [] (by decide)

/-- C10: the backward scan stops at the most recent jenkins comment at or
after the patch-set creation time; if that comment has no parseable job
lines, both outcome sets are empty and the verdict is NoAction, whatever
older comments (including retry-worthy jenkins reports) the review has. -/
theorem c10_latest_jenkins_wins (review : Review) (extra : Option (List String))
    (cs : List Comment) (ps : PatchSet) (t : Int)
    (pre : List Comment) (cj : Comment) (rest : List Comment) (m : String)
    (hcs : review.comments = some cs) (hps : review.currentPatchSet = some ps)
    (ht : ps.createdOn = some t)
    (hrev : cs.reverse = pre ++ cj :: rest)
    (hpre : ∀ d ∈ pre, scanPassive t d)
    (hts : ∃ ts, cj.timestamp = some ts ∧ ¬ ts < t)
    (hm : cj.message = some m)
    (hnr : pyStartsWith m "recheck " = false)
    (hu : cj.reviewer = some "jenkins")
    (hnoparse : ∀ line ∈ pySplitlines m,
        hasSubstr nonVotingMarker line.data = true ∨ job_status_match line.data = none) :
    extract_jobs_from_ci_message m = ([], []) ∧
    retry_with review extra = Except.ok (none, none) := by
  have hext : extract_jobs_from_ci_message m = ([], []) :=
    extractJobs_all_skipped (pySplitlines m) hnoparse
  refine ⟨hext, ?_⟩
  obtain ⟨ts, hts1, hts2⟩ := hts
  obtain ⟨er2, hred⟩ := scanLoop_append_passive t pre (cj :: rest) none hpre
  have hscan : scanLoop t none none cs.reverse =
      Except.ok (ScanOutcome.done (some cj) er2) := by
    rw [hrev, hred, scanLoop_jenkins_head t er2 cj rest ts m hts1 hts2 hm hnr hu]
  rw [retry_with_located review extra cs ps t cj er2 hcs hps ht hscan]
  exact decide_retry_no_success cj er2 extra m hm (by rw [hext])

/-- C10 witness: the newest jenkins comment is prose-only, so the verdict is
NoAction although the older jenkins comment was retry-worthy. -/
theorem c10_witness :
    extract_jobs_from_ci_message msgProseOnly = ([], []) ∧
    retry_with exReviewStale none = Except.ok (none, none) :=
  c10_latest_jenkins_wins exReviewStale none [cJenkinsRetryWorthy, cJenkinsProse]
    psBasic 50 [] cJenkinsProse [cJenkinsRetryWorthy] msgProseOnly rfl rfl rfl rfl
    (by simp) ⟨130, rfl, by decide⟩ rfl rfl rfl (by decide)

end AutoRecheck
